import Mathlib

/-!
Verification of the AV notification system (MicroPython repository) against its
natural-language specification.  Each Python construct relevant to the claims is
shallowly embedded as an executable Lean definition, translated directly from
the source files:

  * src/async_queue.py     — class AsyncQueue (bounded cooperative FIFO)
  * src/state_manager.py   — class StateManager (message log, handlers, writer task)
  * src/display_manager.py — class DisplayManager (scaled text layout, scroll loop,
                             core-1 lock discipline)

Cooperative suspension is modelled by Option-valued steps: an operation that
would suspend the calling task in uasyncio returns none (the state is
unchanged and the caller has not completed); an operation that completes
returns the successor state.
-/

/-! ## AsyncQueue (src/async_queue.py) -/

/-- State of an AsyncQueue: the configured maxsize and the contents of the
internal collections.deque (front of the list = oldest element).
Items are modelled as natural numbers. -/
structure AsyncQueue where
  maxsize : Nat
  queue : List Nat
deriving DecidableEq

/-- Internal maxlen chosen for the deque in AsyncQueue.__init__
(src/async_queue.py lines 34-40): the maxsize itself when positive, and the
documented practical bound 20 when maxsize is 0. -/
def dequeInternalMaxlen (maxsize : Nat) : Nat :=
  if maxsize > 0 then maxsize else 20

/-- Append to a MicroPython deque with a maxlen: when the deque already holds
maxlen items, the oldest item (opposite end) is silently discarded, which is
the default deque overflow behaviour used by src/async_queue.py line 40. -/
def dequeAppend (maxlen : Nat) (q : List Nat) (x : Nat) : List Nat :=
  if q.length < maxlen then q ++ [x] else q.tail ++ [x]

/-- AsyncQueue.__init__ (src/async_queue.py lines 19-44): a negative maxsize
is rejected with a ValueError, otherwise the queue starts empty. -/
def AsyncQueue.init (maxsize : Int) : Except String AsyncQueue :=
  if maxsize < 0 then .error "maxsize must be a non-negative integer"
  else .ok { maxsize := maxsize.toNat, queue := [] }

/-- AsyncQueue.put (src/async_queue.py lines 46-58).  The while loop suspends
the caller as long as maxsize > 0 and the queue holds at least maxsize items;
a suspended put is modelled as none (no state change, caller not completed).
Once past the loop the item is appended to the deque. -/
def AsyncQueue.put (s : AsyncQueue) (x : Nat) : Option AsyncQueue :=
  if s.maxsize > 0 ∧ s.queue.length ≥ s.maxsize then none
  else some { s with queue := dequeAppend (dequeInternalMaxlen s.maxsize) s.queue x }

/-- AsyncQueue.get (src/async_queue.py lines 60-73): suspends (none) while the
queue is empty, otherwise removes and returns the oldest item (popleft). -/
def AsyncQueue.get (s : AsyncQueue) : Option (Nat × AsyncQueue) :=
  match s.queue with
  | [] => none
  | x :: rest => some (x, { s with queue := rest })

/-- AsyncQueue.qsize (src/async_queue.py lines 75-80). -/
def AsyncQueue.qsize (s : AsyncQueue) : Nat := s.queue.length

/-- AsyncQueue.empty (src/async_queue.py lines 82-87). -/
def AsyncQueue.emptyQ (s : AsyncQueue) : Bool := s.queue.length == 0

/-- AsyncQueue.full (src/async_queue.py lines 89-95). -/
def AsyncQueue.full (s : AsyncQueue) : Bool :=
  decide (s.maxsize > 0 ∧ s.queue.length ≥ s.maxsize)

/-- One request issued to the queue by some task of the single cooperative
scheduler: either a put of an item or a get. -/
inductive QOp where
  | put (x : Nat)
  | get
deriving DecidableEq

/-- Run a sequence of queue operations under the cooperative scheduler.
Returns (final queue state, items whose put completed in order, items returned
by completed gets in order).  An operation that would suspend contributes
nothing: its caller stays suspended and the queue state is unchanged. -/
def runOps : AsyncQueue → List QOp → AsyncQueue × List Nat × List Nat
  | s, [] => (s, [], [])
  | s, QOp.put x :: rest =>
    match s.put x with
    | none => runOps s rest
    | some s' =>
      let r := runOps s' rest
      (r.1, x :: r.2.1, r.2.2)
  | s, QOp.get :: rest =>
    match s.get with
    | none => runOps s rest
    | some (y, s') =>
      let r := runOps s' rest
      (r.1, r.2.1, y :: r.2.2)

/-- A completed put on a queue with positive capacity that respects its bound
appends the item with no loss and keeps the bound. -/
lemma put_some_pos {s s' : AsyncQueue} {x : Nat} (hC : 0 < s.maxsize)
    (h : s.put x = some s') :
    s'.maxsize = s.maxsize ∧ s'.queue = s.queue ++ [x] ∧
    s'.queue.length ≤ s.maxsize := by
  unfold AsyncQueue.put at h
  by_cases hfull : s.maxsize > 0 ∧ s.queue.length ≥ s.maxsize
  · simp [hfull] at h
  · rw [if_neg hfull] at h
    have hlt : s.queue.length < s.maxsize := by
      rcases Nat.lt_or_ge s.queue.length s.maxsize with h' | h'
      · exact h'
      · exact absurd ⟨hC, h'⟩ hfull
    have hmaxlen : dequeInternalMaxlen s.maxsize = s.maxsize := by
      unfold dequeInternalMaxlen; rw [if_pos hC]
    have happ : dequeAppend (dequeInternalMaxlen s.maxsize) s.queue x
        = s.queue ++ [x] := by
      unfold dequeAppend; rw [hmaxlen, if_pos hlt]
    rw [happ] at h
    cases h
    refine ⟨rfl, rfl, ?_⟩
    simp only [List.length_append, List.length_cons, List.length_nil]
    omega

/-- A completed get removes exactly the oldest element and keeps maxsize. -/
lemma get_some {s s' : AsyncQueue} {y : Nat} (h : s.get = some (y, s')) :
    s.queue = y :: s'.queue ∧ s'.maxsize = s.maxsize := by
  unfold AsyncQueue.get at h
  cases hq : s.queue with
  | nil => rw [hq] at h; cases h
  | cons a rest =>
    rw [hq] at h
    cases h
    exact ⟨rfl, rfl⟩

/-- Main invariant of a positive-capacity queue run: maxsize is preserved, the
length bound holds at the end, and the completed gets followed by the residual
queue contents are exactly the initial contents followed by the completed puts
(no loss, no reordering, FIFO). -/
lemma runOps_inv (ops : List QOp) : ∀ s : AsyncQueue, 0 < s.maxsize →
    s.queue.length ≤ s.maxsize →
    (runOps s ops).1.maxsize = s.maxsize ∧
    (runOps s ops).1.queue.length ≤ s.maxsize ∧
    (runOps s ops).2.2 ++ (runOps s ops).1.queue
      = s.queue ++ (runOps s ops).2.1 := by
  induction ops with
  | nil =>
    intro s hC hlen
    simp [runOps]
    exact hlen
  | cons op rest ih =>
    intro s hC hlen
    cases op with
    | put x =>
      cases hput : s.put x with
      | none =>
        simp only [runOps, hput]
        exact ih s hC hlen
      | some s' =>
        obtain ⟨hmax, hq, hlen'⟩ := put_some_pos hC hput
        have := ih s' (hmax ▸ hC) (hmax ▸ hlen')
        simp only [runOps, hput]
        rcases this with ⟨h1, h2, h3⟩
        refine ⟨by rw [h1, hmax], by rw [hmax] at h2; exact h2, ?_⟩
        rw [h3, hq]
        simp
    | get =>
      cases hget : s.get with
      | none =>
        simp only [runOps, hget]
        exact ih s hC hlen
      | some p =>
        obtain ⟨y, s'⟩ := p
        obtain ⟨hq, hmax⟩ := get_some hget
        have hlen' : s'.queue.length ≤ s'.maxsize := by
          rw [hmax]
          have : s.queue.length = s'.queue.length + 1 := by rw [hq]; simp
          omega
        have := ih s' (hmax ▸ hC) hlen'
        simp only [runOps, hget]
        rcases this with ⟨h1, h2, h3⟩
        refine ⟨by rw [h1, hmax], by rw [hmax] at h2; exact h2, ?_⟩
        simp only [List.cons_append, h3, hq]

/-- C1: for every queue constructed with capacity C > 0 and every operation
sequence under the single cooperative scheduler, the queue never holds more
than C items (every sequence, hence every prefix of a longer run); completed
gets return exactly the completed-put items in FIFO order; and a put issued
while the queue holds C items does not complete (it returns none, the caller
stays suspended), while after a get removes an item the put can complete. -/
theorem asyncQueue_bounded_fifo_blocking (C : Nat) (hC : 0 < C) :
    (∀ ops : List QOp,
      (runOps { maxsize := C, queue := [] } ops).1.queue.length ≤ C ∧
      (runOps { maxsize := C, queue := [] } ops).2.2
          ++ (runOps { maxsize := C, queue := [] } ops).1.queue
        = (runOps { maxsize := C, queue := [] } ops).2.1) ∧
    (∀ (s : AsyncQueue) (x : Nat), s.maxsize = C → C ≤ s.queue.length →
      s.put x = none) ∧
    (∀ (s s' : AsyncQueue) (y x : Nat), s.maxsize = C → s.queue.length ≤ C →
      s.get = some (y, s') → (s'.put x).isSome = true) := by
  refine ⟨?_, ?_, ?_⟩
  · intro ops
    have h := runOps_inv ops { maxsize := C, queue := [] } hC (by simp)
    refine ⟨h.2.1, ?_⟩
    have := h.2.2
    simpa using this
  · intro s x hmax hlen
    unfold AsyncQueue.put
    rw [if_pos ⟨hmax ▸ hC, hmax ▸ hlen⟩]
  · intro s s' y x hmax hlen hget
    obtain ⟨hq, hmax'⟩ := get_some hget
    have hlt : s'.queue.length < s'.maxsize := by
      have : s.queue.length = s'.queue.length + 1 := by rw [hq]; simp
      omega
    unfold AsyncQueue.put
    rw [if_neg (by omega)]
    simp

/-- C1 witness: the specification scenario at capacity 2.  The operations
put 1, put 2 complete; put 3 finds the queue full and stays suspended; a get
returns 1; put 3 then completes; the remaining gets return 2 then 3.  The
blocking conjuncts are exercised on the full state with queue [1, 2]. -/
theorem asyncQueue_bounded_fifo_blocking_witness :
    (0 < 2 ∧
      ((runOps { maxsize := 2, queue := [] }
          [QOp.put 1, QOp.put 2, QOp.put 3, QOp.get, QOp.put 3,
           QOp.get, QOp.get]).1.queue.length ≤ 2 ∧
        (runOps { maxsize := 2, queue := [] }
          [QOp.put 1, QOp.put 2, QOp.put 3, QOp.get, QOp.put 3,
           QOp.get, QOp.get]).2.2
            ++ (runOps { maxsize := 2, queue := [] }
          [QOp.put 1, QOp.put 2, QOp.put 3, QOp.get, QOp.put 3,
           QOp.get, QOp.get]).1.queue
          = (runOps { maxsize := 2, queue := [] }
          [QOp.put 1, QOp.put 2, QOp.put 3, QOp.get, QOp.put 3,
           QOp.get, QOp.get]).2.1)) ∧
    AsyncQueue.put { maxsize := 2, queue := [1, 2] } 3 = none ∧
    (AsyncQueue.put { maxsize := 2, queue := [2] } 3).isSome = true := by
  refine ⟨⟨by decide, (asyncQueue_bounded_fifo_blocking 2 (by decide)).1 _⟩, ?_, ?_⟩
  · exact (asyncQueue_bounded_fifo_blocking 2 (by decide)).2.1
      { maxsize := 2, queue := [1, 2] } 3 rfl (by decide)
  · exact (asyncQueue_bounded_fifo_blocking 2 (by decide)).2.2
      { maxsize := 2, queue := [1, 2] } { maxsize := 2, queue := [2] } 1 3 rfl
      (by decide) (by decide)

/-- C7 counterexample: with capacity 0, 21 puts with no intervening gets all
complete (the while loop in put never suspends when maxsize is 0), yet the
internal deque has maxlen 20 (src/async_queue.py line 37), so the append of
the 21st item silently drops the oldest one: item 0 completed its put but is
in neither the residual queue nor any get output — it is lost, refuting
"a sequence of puts with no intervening gets loses no items" for capacity 0. -/
theorem asyncQueue_capacity0_drop_counterexample :
    (runOps { maxsize := 0, queue := [] } ((List.range 21).map QOp.put)).2.1
        = List.range 21 ∧
    (runOps { maxsize := 0, queue := [] } ((List.range 21).map QOp.put)).2.2
        = [] ∧
    (runOps { maxsize := 0, queue := [] } ((List.range 21).map QOp.put)).1.queue
        = (List.range 21).tail ∧
    ¬ 0 ∈ (runOps { maxsize := 0, queue := [] }
        ((List.range 21).map QOp.put)).1.queue := by decide

/-- C7 amended: put never reorders items, and for every positive capacity it
never drops: from any in-bound state, completed gets followed by the residual
queue equal the initial contents followed by the completed puts.  With
capacity 0 a put never suspends; the internal deque bound is 20, so a put
finding fewer than 20 buffered items appends with no loss, while beyond that
bound the oldest buffered item is discarded (per the counterexample). -/
theorem asyncQueue_no_drop_amended (s : AsyncQueue) :
    (0 < s.maxsize → s.queue.length ≤ s.maxsize →
      ∀ ops : List QOp,
        (runOps s ops).2.2 ++ (runOps s ops).1.queue
          = s.queue ++ (runOps s ops).2.1) ∧
    (s.maxsize = 0 → ∀ x, (s.put x).isSome = true) ∧
    (s.maxsize = 0 → s.queue.length < 20 → ∀ x,
      s.put x = some { maxsize := 0, queue := s.queue ++ [x] }) := by
  refine ⟨?_, ?_, ?_⟩
  · intro hC hlen ops
    exact (runOps_inv ops s hC hlen).2.2
  · intro h0 x
    unfold AsyncQueue.put
    rw [if_neg (by omega)]
    simp
  · intro h0 hlt x
    unfold AsyncQueue.put
    rw [if_neg (by omega)]
    have hmaxlen : dequeInternalMaxlen s.maxsize = 20 := by
      simp [dequeInternalMaxlen, h0]
    have happ : dequeAppend (dequeInternalMaxlen s.maxsize) s.queue x
        = s.queue ++ [x] := by
      unfold dequeAppend; rw [hmaxlen, if_pos hlt]
    rw [happ]
    cases s with
    | mk m q => simp at h0; subst h0; rfl

/-- C7 amended witness: capacity 1 run [put 7, get] loses nothing, and with
capacity 0 a put on a single-element queue completes and appends. -/
theorem asyncQueue_no_drop_amended_witness :
    (0 < 1 ∧
      (runOps { maxsize := 1, queue := [] } [QOp.put 7, QOp.get]).2.2
          ++ (runOps { maxsize := 1, queue := [] } [QOp.put 7, QOp.get]).1.queue
        = ([] : List Nat)
          ++ (runOps { maxsize := 1, queue := [] } [QOp.put 7, QOp.get]).2.1) ∧
    (AsyncQueue.put { maxsize := 0, queue := [5] } 6).isSome = true ∧
    AsyncQueue.put { maxsize := 0, queue := [5] } 6
      = some { maxsize := 0, queue := [5, 6] } := by
  refine ⟨⟨by decide, ?_⟩, ?_, ?_⟩
  · exact (asyncQueue_no_drop_amended { maxsize := 1, queue := [] }).1
      (by decide) (by decide) [QOp.put 7, QOp.get]
  · exact (asyncQueue_no_drop_amended { maxsize := 0, queue := [5] }).2.1 rfl 6
  · exact (asyncQueue_no_drop_amended { maxsize := 0, queue := [5] }).2.2 rfl
      (by decide) 6

/-! ## StateManager (src/state_manager.py) -/

/-- One entry of the module-level _messages list (src/state_manager.py
line 10): a dict with the fields type, value, state, timestamp. -/
structure Message where
  type : String
  value : String
  state : String
  timestamp : String
deriving DecidableEq

/-- Module constant _max_messages (src/state_manager.py line 8). -/
def max_messages : Nat := 5

/-- The StateManager state touched by the event handlers: the global
_messages list and the _messages_dirty asyncio.Event (modelled as a Bool:
true when the event is set). -/
structure SMState where
  messages : List Message
  messages_dirty : Bool
deriving DecidableEq

/-- Render instruction vocabulary of the specification (RenderInstruction in
spec section 3: SetText{value} or Clear).  The handlers in
src/state_manager.py write only to _messages and _messages_dirty and send
nothing to any display queue, so every embedded handler below returns the
empty instruction list; the type is needed to state what the specification
expects to be emitted. -/
inductive RenderInstruction where
  | setText (value : String)
  | clear
deriving DecidableEq

/-- An event dict as read by StateManager.run (src/state_manager.py
lines 132-133): the type and value fields, each defaulting to a string. -/
structure Event where
  type : String
  value : String
deriving DecidableEq

/-- StateManager._handle_accept (src/state_manager.py lines 162-167): the
body only prints; it does not touch _messages, does not set _messages_dirty
(its own comment notes that a mutation would have to call
self._messages_dirty.set()), and emits nothing. -/
def handle_accept (s : SMState) : SMState × List RenderInstruction := (s, [])

/-- StateManager._handle_reject (src/state_manager.py lines 169-173): prints
only, like _handle_accept. -/
def handle_reject (s : SMState) : SMState × List RenderInstruction := (s, [])

/-- StateManager._handle_pickup (src/state_manager.py lines 176-188): appends
a PICKUP entry in state wait with the current timestamp and sets the dirty
event.  ts is the string produced by _current_timestamp. -/
def handle_pickup (ts : String) (v : String) (s : SMState) :
    SMState × List RenderInstruction :=
  ({ messages := s.messages
      ++ [{ type := "PICKUP", value := v, state := "wait", timestamp := ts }],
     messages_dirty := true }, [])

/-- StateManager._handle_emergency_cb (src/state_manager.py lines 190-202). -/
def handle_emergency_cb (ts : String) (s : SMState) :
    SMState × List RenderInstruction :=
  ({ messages := s.messages
      ++ [{ type := "EMERGENCY_CB",
            value := "Staffler bitte zum Kids-Check-In kommen",
            state := "wait", timestamp := ts }],
     messages_dirty := true }, [])

/-- StateManager._handle_emergency_event (src/state_manager.py
lines 204-216). -/
def handle_emergency_event (ts : String) (s : SMState) :
    SMState × List RenderInstruction :=
  ({ messages := s.messages
      ++ [{ type := "EMERGENCY_EVENT",
            value := "Sanitäterteam bitte zum Kids-Check-In kommen",
            state := "wait", timestamp := ts }],
     messages_dirty := true }, [])

/-- The dispatch performed by one iteration of StateManager.run
(src/state_manager.py lines 128-148) on one event taken from the queue. -/
def handle_event (ts : String) (e : Event) (s : SMState) :
    SMState × List RenderInstruction :=
  if e.type = "BUTTON_PRESSED" then
    if e.value = "ACCEPT" then handle_accept s
    else if e.value = "REJECT" then handle_reject s
    else (s, [])
  else if e.type = "PICKUP" then handle_pickup ts e.value s
  else if e.type = "EMERGENCY_CB" then handle_emergency_cb ts s
  else if e.type = "EMERGENCY_EVENT" then handle_emergency_event ts s
  else (s, [])

/-- Repeated iterations of the StateManager.run loop over a list of queued
events (all stamped with the same RTC timestamp for concreteness). -/
def run_events (ts : String) (es : List Event) (s : SMState) : SMState :=
  es.foldl (fun st e => (handle_event ts e st).1) s

/-- In-place state update of the list element at a given position, as done by
_messages[index]["state"] = new_state. -/
def set_state_at : List Message → Nat → String → List Message
  | [], _, _ => []
  | m :: rest, 0, st => { m with state := st } :: rest
  | m :: rest, n + 1, st => m :: set_state_at rest n st

/-- StateManager.update_state (src/state_manager.py lines 155-159): only when
0 <= index < len(_messages) is the entry's state replaced and the dirty event
set; otherwise nothing at all happens. -/
def update_state (s : SMState) (index : Int) (new_state : String) : SMState :=
  if 0 ≤ index ∧ index < (s.messages.length : Int) then
    { messages := set_state_at s.messages index.toNat new_state,
      messages_dirty := true }
  else s

/-- The while loop of StateManager._write_messages_to_file
(src/state_manager.py lines 74-76): pop the front element as long as the list
is longer than _max_messages. -/
def trim_loop : List Message → List Message
  | [] => []
  | m :: rest =>
    if (m :: rest).length > max_messages then trim_loop rest else m :: rest

/-- StateManager._write_messages_to_file (src/state_manager.py lines 63-87):
trims a copy of the global list to at most _max_messages by popping from the
front, reassigns the global list when the copy became shorter, and writes the
trimmed list to the file.  Returns (new state, file content written).  The
dirty event is not touched here. -/
def write_messages_to_file (s : SMState) : SMState × List Message :=
  let temp := trim_loop s.messages
  ({ messages := if temp.length < s.messages.length then temp else s.messages,
     messages_dirty := s.messages_dirty }, temp)

/-- The trim loop drops exactly the oldest surplus entries from the front. -/
lemma trim_loop_eq_drop :
    ∀ l : List Message, trim_loop l = l.drop (l.length - max_messages) := by
  intro l
  induction l with
  | nil => rfl
  | cons a rest ih =>
    rw [trim_loop]
    by_cases h : (a :: rest).length > max_messages
    · rw [if_pos h, ih]
      have harith : (a :: rest).length - max_messages
          = (rest.length - max_messages) + 1 := by
        simp only [List.length_cons] at h ⊢
        omega
      rw [harith]
      simp
    · rw [if_neg h]
      have : (a :: rest).length - max_messages = 0 := by omega
      rw [this, List.drop_zero]

/-- C2 counterexample: six PICKUP events processed by the StateManager run
loop leave the in-memory log at length 6 > _max_messages = 5, because the
handlers only append and set the dirty event; no handler trims the log.  The
bound is only enforced later, inside _write_messages_to_file. -/
theorem message_log_exceeds_max_counterexample :
    (run_events "01.01.2025 10:00"
        (List.replicate 6 { type := "PICKUP", value := "x" })
        { messages := [], messages_dirty := false }).messages.length = 6 ∧
    max_messages = 5 := by decide

/-- C2 amended: the in-memory log may exceed _max_messages between an append
and the next debounced write; the bound is enforced whenever
_write_messages_to_file runs: it trims strictly oldest-first (popping from
the front), the written list is exactly the most recent min(len, 5) entries
in their original order, its length is at most 5, the in-memory log equals
the written list afterwards, and the dirty flag is untouched by the write. -/
theorem write_messages_trims_oldest_first (s : SMState) :
    (write_messages_to_file s).2
        = s.messages.drop (s.messages.length - max_messages) ∧
    (write_messages_to_file s).2.length ≤ max_messages ∧
    (write_messages_to_file s).1.messages = (write_messages_to_file s).2 ∧
    (write_messages_to_file s).1.messages_dirty = s.messages_dirty := by
  have htrim := trim_loop_eq_drop s.messages
  have hlen : (trim_loop s.messages).length
      = s.messages.length - (s.messages.length - max_messages) := by
    rw [htrim, List.length_drop]
  refine ⟨htrim, ?_, ?_, rfl⟩
  · show (trim_loop s.messages).length ≤ max_messages
    rw [htrim, List.length_drop]
    omega
  · show (if (trim_loop s.messages).length < s.messages.length
        then trim_loop s.messages else s.messages) = trim_loop s.messages
    by_cases hc : (trim_loop s.messages).length < s.messages.length
    · rw [if_pos hc]
    · rw [if_neg hc]
      rw [hlen] at hc
      have hzero : s.messages.length - max_messages = 0 := by omega
      rw [htrim, hzero, List.drop_zero]

/-- C3 evaluation at the failing input: a PICKUP for Alice is handled (the
claim's ActiveIndex = 0 situation) and the debounced writer has cleared the
dirty flag; then BUTTON_PRESSED/ACCEPT is dispatched by the run loop to
_handle_accept, whose body only prints.  The log entry stays in state wait
(not accepted), no render instruction is emitted, and the dirty flag stays
false, so nothing is persisted — contradicting the specified Accept effect. -/
theorem handle_accept_stub_eval :
    handle_event "01.01.2025 10:05"
        { type := "BUTTON_PRESSED", value := "ACCEPT" }
        { messages := [{ type := "PICKUP", value := "Alice", state := "wait",
                         timestamp := "01.01.2025 10:00" }],
          messages_dirty := false }
      = ({ messages := [{ type := "PICKUP", value := "Alice", state := "wait",
                          timestamp := "01.01.2025 10:00" }],
           messages_dirty := false }, []) := by decide

/-- C4 counterexample: handling Pickup("Alice") on the empty log emits no
render instruction at all — in particular not the SetText("Kind abholen:
Alice") required by the claim; src/state_manager.py sends nothing to any
display queue and contains no ActiveIndex. -/
theorem handle_pickup_no_settext_counterexample :
    (handle_pickup "01.01.2025 10:00" "Alice"
        { messages := [], messages_dirty := false }).2 = [] ∧
    (handle_pickup "01.01.2025 10:00" "Alice"
        { messages := [], messages_dirty := false }).2
      ≠ [RenderInstruction.setText ("Kind abholen: " ++ "Alice")] := by decide

/-- C4 amended: handling a Pickup{text} event appends exactly one message of
type PICKUP with the given text as value, state wait and the current
timestamp, and raises the dirty signal; on an empty log the new message sits
at position 0.  The handler maintains no ActiveIndex and emits no render
instruction. -/
theorem handle_pickup_appends (ts v : String) (s : SMState) :
    handle_pickup ts v s
      = ({ messages := s.messages
             ++ [{ type := "PICKUP", value := v, state := "wait",
                   timestamp := ts }],
           messages_dirty := true }, []) ∧
    (handle_pickup ts v { messages := [], messages_dirty := false }).1.messages
      = [{ type := "PICKUP", value := v, state := "wait", timestamp := ts }] := by
  constructor
  · rfl
  · rfl

/-- C10: StateManager.update_state called with an index outside
[0, len(_messages)) is a complete no-op: the returned state is the input
state, so no log entry changes, the length is unchanged, and the dirty event
is not set — hence the call triggers no persistence write. -/
theorem update_state_out_of_range (s : SMState) (index : Int)
    (new_state : String)
    (h : ¬ (0 ≤ index ∧ index < (s.messages.length : Int))) :
    update_state s index new_state = s ∧
    (update_state s index new_state).messages.length = s.messages.length ∧
    (update_state s index new_state).messages_dirty = s.messages_dirty := by
  have : update_state s index new_state = s := by
    unfold update_state
    rw [if_neg h]
  exact ⟨this, by rw [this], by rw [this]⟩

/-- C10 witness: index -1 (the webserver's default) on a one-element log with
a clear dirty flag leaves everything unchanged. -/
theorem update_state_out_of_range_witness :
    (¬ (0 ≤ (-1 : Int) ∧ (-1 : Int)
        < (([{ type := "PICKUP", value := "Alice", state := "wait",
               timestamp := "t" }] : List Message).length : Int))) ∧
    update_state
        { messages := [{ type := "PICKUP", value := "Alice", state := "wait",
                         timestamp := "t" }], messages_dirty := false }
        (-1) "accepted"
      = { messages := [{ type := "PICKUP", value := "Alice", state := "wait",
                         timestamp := "t" }], messages_dirty := false } := by
  refine ⟨by decide, ?_⟩
  exact (update_state_out_of_range
    { messages := [{ type := "PICKUP", value := "Alice", state := "wait",
                     timestamp := "t" }], messages_dirty := false }
    (-1) "accepted" (by decide)).1

/-- Phase of StateManager._file_writer_task (src/state_manager.py
lines 97-116): waiting on the dirty event (line 104), or inside the 500 ms
debounce sleep after having cleared the event (lines 107-112). -/
inductive WriterPhase where
  | waiting
  | sleeping
deriving DecidableEq

/-- Combined cooperative-domain state for the persistence analysis: the
StateManager state, the writer task's phase, and the list of full-log writes
performed so far (each element is one file content, oldest first). -/
structure SysState where
  sm : SMState
  phase : WriterPhase
  writes : List (List Message)
deriving DecidableEq

/-- One scheduling step of the cooperative domain: the run loop handles one
queued event (a mutation), or the writer task passes one of its two
suspension points.  writerWake is the transition at lines 104-107 (the wait
returns because the dirty event is set, and the event is cleared immediately,
before the debounce sleep); writerFlush is the transition at lines 112-116
(the 500 ms sleep elapses and _write_messages_to_file runs).  A mutation step
between writerWake and writerFlush is precisely a mutation that arrives
during the debounce sleep, i.e. less than debounce_ms after the previous
one. -/
inductive SysStep where
  | handle (ts : String) (e : Event)
  | writerWake
  | writerFlush
deriving DecidableEq

/-- Small-step transition function for the cooperative domain.  A writer step
whose guard does not hold (wait on a clear event, or the sleep not having
started) leaves the state unchanged: the writer task simply stays suspended. -/
def sys_step (σ : SysState) : SysStep → SysState
  | .handle ts e => { σ with sm := (handle_event ts e σ.sm).1 }
  | .writerWake =>
    if σ.phase = WriterPhase.waiting ∧ σ.sm.messages_dirty = true then
      { σ with sm := { σ.sm with messages_dirty := false },
               phase := WriterPhase.sleeping }
    else σ
  | .writerFlush =>
    if σ.phase = WriterPhase.sleeping then
      { sm := (write_messages_to_file σ.sm).1,
        phase := WriterPhase.waiting,
        writes := σ.writes ++ [(write_messages_to_file σ.sm).2] }
    else σ

/-- Run a sequence of cooperative scheduling steps. -/
def sys_run (σ : SysState) (steps : List SysStep) : SysState :=
  steps.foldl sys_step σ

/-- C5 evaluation at the failing input: a burst of two PICKUP mutations less
than debounce_ms apart (the second arrives during the writer's 500 ms
debounce sleep).  Because _file_writer_task clears the dirty event before the
sleep, the flag set by the second mutation survives the first flush, so the
writer immediately runs a second wake/sleep/flush cycle: the burst produces
two full-log writes, not one — though both writes do hold the final
in-memory state of the burst.  This contradicts the claim (and the code's own
comment at src/state_manager.py lines 109-111, which promises that several
changes are bundled into a single save). -/
theorem debounce_burst_double_write :
    (sys_run
        { sm := { messages := [], messages_dirty := false },
          phase := WriterPhase.waiting, writes := [] }
        [SysStep.handle "t1" { type := "PICKUP", value := "Alice" },
         SysStep.writerWake,
         SysStep.handle "t2" { type := "PICKUP", value := "Bob" },
         SysStep.writerFlush,
         SysStep.writerWake,
         SysStep.writerFlush]).writes.length = 2 ∧
    (sys_run
        { sm := { messages := [], messages_dirty := false },
          phase := WriterPhase.waiting, writes := [] }
        [SysStep.handle "t1" { type := "PICKUP", value := "Alice" },
         SysStep.writerWake,
         SysStep.handle "t2" { type := "PICKUP", value := "Bob" },
         SysStep.writerFlush,
         SysStep.writerWake,
         SysStep.writerFlush]).writes
      = [[{ type := "PICKUP", value := "Alice", state := "wait",
            timestamp := "t1" },
          { type := "PICKUP", value := "Bob", state := "wait",
            timestamp := "t2" }],
         [{ type := "PICKUP", value := "Alice", state := "wait",
            timestamp := "t1" },
          { type := "PICKUP", value := "Bob", state := "wait",
            timestamp := "t2" }]] ∧
    (sys_run
        { sm := { messages := [], messages_dirty := false },
          phase := WriterPhase.waiting, writes := [] }
        [SysStep.handle "t1" { type := "PICKUP", value := "Alice" },
         SysStep.writerWake,
         SysStep.handle "t2" { type := "PICKUP", value := "Bob" },
         SysStep.writerFlush,
         SysStep.writerWake,
         SysStep.writerFlush]).sm.messages
      = [{ type := "PICKUP", value := "Alice", state := "wait",
           timestamp := "t1" },
         { type := "PICKUP", value := "Bob", state := "wait",
           timestamp := "t2" }] := by decide

/-- Python str.strip(): remove leading and trailing whitespace, as used on
the file content in _load_messages_from_file (src/state_manager.py
line 53). -/
def is_py_space (c : Char) : Bool :=
  c = ' ' || c = '\t' || c = '\n' || c = '\r' || c = '\x0b' || c = '\x0c'

/-- Executable model of str.strip() over the character list of a string. -/
def strip (s : String) : String :=
  let cs := s.data.dropWhile is_py_space
  String.mk (cs.reverse.dropWhile is_py_space).reverse

/-- StateManager._ensure_message_file (src/state_manager.py lines 40-45): the
file system is modelled as the optional content of messages.txt; a missing
file is created holding the empty JSON list, an existing file is kept. -/
def ensure_message_file (fs : Option String) : String :=
  match fs with
  | none => "[]"
  | some content => content

/-- StateManager._load_messages_from_file (src/state_manager.py
lines 48-61).  ujson.loads is an external library, passed in as a decoder
that returns none when it would raise.  The whole body runs in a
try/except, so the embedding is a total function: on a decode failure the
exception is caught, the condition is printed, and the log is reset to
empty.  Returns (loaded log, whether the error branch was logged). -/
def load_messages_from_file (decode : String → Option (List Message))
    (content : String) : List Message × Bool :=
  let data := strip content
  if data = "" then ([], false)
  else
    match decode data with
    | some msgs => (msgs, false)
    | none => ([], true)

/-- The startup sequence of StateManager.__init__ (src/state_manager.py
lines 28-29): _ensure_message_file followed by _load_messages_from_file.
Returns (file content after startup, (in-memory log, error-logged flag)). -/
def startup_load (decode : String → Option (List Message))
    (fs : Option String) : String × List Message × Bool :=
  let content := ensure_message_file fs
  (content, load_messages_from_file decode content)

/-- C8: on startup, a missing messages.txt is created containing the empty
JSON list and the in-memory log starts empty (assuming only that the
external ujson decoder parses "[]" as the empty list); and whenever the
present content does not decode (the decoder raises), the in-memory log is
reset to empty and, for non-blank content, the condition is logged.  The
embedding is a total function: no exception propagates to the caller. -/
theorem startup_load_never_fatal (decode : String → Option (List Message))
    (hdec : decode "[]" = some []) :
    startup_load decode none = ("[]", [], false) ∧
    (∀ content : String, decode (strip content) = none →
      (startup_load decode (some content)).2.1 = [] ∧
      (strip content ≠ "" → (startup_load decode (some content)).2.2 = true)) := by
  constructor
  · show ("[]", load_messages_from_file decode "[]") = ("[]", [], false)
    have hstrip : strip "[]" = "[]" := by decide
    unfold load_messages_from_file
    rw [hstrip]
    rw [if_neg (by decide)]
    rw [hdec]
  · intro content hfail
    constructor
    · show (load_messages_from_file decode content).1 = []
      unfold load_messages_from_file
      by_cases hblank : strip content = ""
      · rw [if_pos hblank]
      · rw [if_neg hblank, hfail]
    · intro hnb
      show (load_messages_from_file decode content).2 = true
      unfold load_messages_from_file
      rw [if_neg hnb, hfail]

/-- C8 witness: a concrete decoder that accepts exactly "[]" shows the
missing-file case produces the empty log with no error, and undecodable
content (here a plain non-JSON string) resets the log to empty and logs. -/
theorem startup_load_never_fatal_witness :
    (fun s => if s = "[]" then some ([] : List Message) else none) "[]"
        = some [] ∧
    startup_load
        (fun s => if s = "[]" then some ([] : List Message) else none) none
      = ("[]", [], false) ∧
    (startup_load
        (fun s => if s = "[]" then some ([] : List Message) else none)
        (some "not a json payload")).2.1 = [] ∧
    (startup_load
        (fun s => if s = "[]" then some ([] : List Message) else none)
        (some "not a json payload")).2.2 = true := by
  refine ⟨by decide, ?_, ?_, ?_⟩
  · exact (startup_load_never_fatal _ (by decide)).1
  · exact ((startup_load_never_fatal _ (by decide)).2 "not a json payload"
      (by decide)).1
  · exact ((startup_load_never_fatal _ (by decide)).2 "not a json payload"
      (by decide)).2 (by decide)

/-! ## DisplayManager (src/display_manager.py) -/

/-- Configuration constants of src/display_manager.py lines 11-20. -/
def DISPLAY_WIDTH : Nat := 128

/-- Display height in pixels (src/display_manager.py line 12). -/
def DISPLAY_HEIGHT : Nat := 64

/-- Pixels per scroll step (src/display_manager.py line 16). -/
def SCROLL_SPEED : Nat := 3

/-- Vertical scale factor (src/display_manager.py line 20). -/
def SCALE_FACTOR_HEIGHT : Nat := 6

/-- The scaled width computed in _calculate_scaled_dims
(src/display_manager.py lines 155-171): the text is padded with spaces to a
multiple of 8 characters, each base glyph is 8 pixels wide, and the base
width is scaled by SCALE_FACTOR_WIDTH = 1.5 and truncated by int().  Because
the padded base width is a multiple of 64, base_width * 1.5 is an exact
float and int() truncation equals base_width * 3 / 2 in integers. -/
def scaled_text_width (text : String) : Nat :=
  let text_length := text.length
  let padding_length := if text_length % 8 ≠ 0 then 8 - text_length % 8 else 0
  let text_length_padded := text_length + padding_length
  let base_width := text_length_padded * 8
  base_width * 3 / 2

/-- Result record of _calculate_scaled_dims (src/display_manager.py
lines 155-184).  Coordinates are signed: x_end is negative for scrolling
text. -/
structure ScaledDims where
  scaled_width : Nat
  scaled_height : Nat
  y_start : Int
  x_start : Int
  x_end : Int
  padded_len : Nat
deriving DecidableEq

/-- DisplayManager._calculate_scaled_dims (src/display_manager.py
lines 155-184): scaled_height = int(8 * 6) = 48, y_start centres the text
band vertically, and the scroll bounds are centred-static when the scaled
width fits the display and x_start = DISPLAY_WIDTH, x_end = -scaled_width
otherwise. -/
def calculate_scaled_dims (text : String) : ScaledDims :=
  let text_length := text.length
  let padding_length := if text_length % 8 ≠ 0 then 8 - text_length % 8 else 0
  let text_length_padded := text_length + padding_length
  let scaled_width := scaled_text_width text
  let scaled_height := 8 * SCALE_FACTOR_HEIGHT
  let y_start : Int := ((DISPLAY_HEIGHT : Int) - (scaled_height : Int)) / 2
  if scaled_width ≤ DISPLAY_WIDTH then
    { scaled_width := scaled_width, scaled_height := scaled_height,
      y_start := y_start,
      x_start := ((DISPLAY_WIDTH : Int) - (scaled_width : Int)) / 2,
      x_end := ((DISPLAY_WIDTH : Int) - (scaled_width : Int)) / 2,
      padded_len := text_length_padded }
  else
    { scaled_width := scaled_width, scaled_height := scaled_height,
      y_start := y_start,
      x_start := (DISPLAY_WIDTH : Int),
      x_end := -(scaled_width : Int),
      padded_len := text_length_padded }

/-- One frame advance of the scroll logic in _core1_scroll_thread
(src/display_manager.py lines 246-257): after rendering at the current
offset, current_x is decremented by SCROLL_SPEED; if it is then at most
x_end it is reset to x_start and a 500 ms end-of-scroll pause is inserted.
current_x is a float in the source but only ever holds integral values
(it starts at float(x_start) and changes in steps of 3), so an Int offset is
exact.  Returns (next offset, whether the end-of-scroll pause ran). -/
def scroll_step (x_start x_end : Int) (x : Int) : Int × Bool :=
  let x' := x - (SCROLL_SPEED : Int)
  if x' ≤ x_end then (x_start, true) else (x', false)

/-- The offset rendered at frame n of the scroll loop, starting from
current_x = float(x_start) on a text change. -/
def scroll_offset (x_start x_end : Int) : Nat → Int
  | 0 => x_start
  | n + 1 => (scroll_step x_start x_end (scroll_offset x_start x_end n)).1

/-- Number of frames in one full scroll cycle for a scaled width sw > 128:
the least n with 128 - 3n ≤ -sw, i.e. the frame at which the decremented
offset first falls to or below x_end and the wrap to x_start happens. -/
def scroll_frames (sw : Nat) : Nat := (130 + sw) / 3

/-- Closed form of the scroll offset before the wrap: starting at
DISPLAY_WIDTH it decreases by exactly SCROLL_SPEED = 3 each frame. -/
lemma scroll_offset_closed (sw : Nat) (hsw : 128 < sw) :
    ∀ n : Nat, n < scroll_frames sw →
      scroll_offset 128 (-(sw : Int)) n = 128 - 3 * (n : Int) := by
  intro n
  induction n with
  | zero => intro _; rfl
  | succ n ih =>
    intro hlt
    have hn : n < scroll_frames sw := Nat.lt_of_succ_lt hlt
    have hoff := ih hn
    show (scroll_step 128 (-(sw : Int)) (scroll_offset 128 (-(sw : Int)) n)).1
      = 128 - 3 * ((n : Int) + 1)
    rw [hoff]
    unfold scroll_step SCROLL_SPEED
    rw [if_neg ?hneg]
    · push_cast
      ring
    case hneg =>
      unfold scroll_frames at hlt
      omega

/-- The wrap happens exactly at frame scroll_frames sw: the decremented
offset first reaches a value at most -sw there, and the step resets the
offset to x_start = 128 and inserts the pause. -/
lemma scroll_step_wraps (sw : Nat) (hsw : 128 < sw) :
    scroll_step 128 (-(sw : Int))
        (scroll_offset 128 (-(sw : Int)) (scroll_frames sw - 1))
      = (128, true) := by
  have hT : 1 ≤ scroll_frames sw := by unfold scroll_frames; omega
  have hoff := scroll_offset_closed sw hsw (scroll_frames sw - 1)
    (by omega)
  rw [hoff]
  unfold scroll_step SCROLL_SPEED
  rw [if_pos ?hpos]
  case hpos =>
    unfold scroll_frames
    omega

/-- The scaled width reported by _calculate_scaled_dims does not depend on
the static/scroll branch. -/
lemma dims_scaled_width (text : String) :
    (calculate_scaled_dims text).scaled_width = scaled_text_width text := by
  simp only [calculate_scaled_dims]
  split <;> rfl

/-- Static branch of _calculate_scaled_dims: the text is centred and the
scroll bounds coincide. -/
lemma dims_static (text : String)
    (h : scaled_text_width text ≤ DISPLAY_WIDTH) :
    (calculate_scaled_dims text).x_start
        = ((DISPLAY_WIDTH : Int) - (scaled_text_width text : Int)) / 2 ∧
    (calculate_scaled_dims text).x_end = (calculate_scaled_dims text).x_start := by
  simp only [calculate_scaled_dims]
  rw [if_pos h]
  exact ⟨rfl, rfl⟩

/-- Scrolling branch of _calculate_scaled_dims. -/
lemma dims_scroll (text : String)
    (h : ¬ scaled_text_width text ≤ DISPLAY_WIDTH) :
    (calculate_scaled_dims text).x_start = 128 ∧
    (calculate_scaled_dims text).x_end = -(scaled_text_width text : Int) := by
  simp only [calculate_scaled_dims]
  rw [if_neg h]
  constructor
  · show ((DISPLAY_WIDTH : Nat) : Int) = 128
    decide
  · rfl

/-- C9 amended: a text whose scaled width fits the display is laid out with
coinciding scroll bounds at the centred position (so the thread renders it
once and never scrolls); a wider text scrolls: the offset starts at
DISPLAY_WIDTH = 128, decreases by exactly SCROLL_SPEED = 3 each frame, and
at the first frame whose decremented offset is at most -text_width (frame
number scroll_frames) it wraps back to 128 with the 500 ms pause.  Because
the offset moves in steps of 3 it may pass -text_width without ever being
equal to it (see the counterexample), so the wrap is triggered by reaching
at most -text_width, not exactly -text_width. -/
theorem display_static_centered_scroll_wrap (text : String) :
    ((calculate_scaled_dims text).scaled_width ≤ DISPLAY_WIDTH →
      (calculate_scaled_dims text).x_start
          = ((DISPLAY_WIDTH : Int)
              - ((calculate_scaled_dims text).scaled_width : Int)) / 2 ∧
      (calculate_scaled_dims text).x_end
          = (calculate_scaled_dims text).x_start) ∧
    (DISPLAY_WIDTH < (calculate_scaled_dims text).scaled_width →
      (calculate_scaled_dims text).x_start = 128 ∧
      (calculate_scaled_dims text).x_end
          = -((calculate_scaled_dims text).scaled_width : Int) ∧
      (∀ n : Nat, n < scroll_frames (calculate_scaled_dims text).scaled_width →
        scroll_offset (calculate_scaled_dims text).x_start
            (calculate_scaled_dims text).x_end n = 128 - 3 * (n : Int)) ∧
      scroll_step (calculate_scaled_dims text).x_start
          (calculate_scaled_dims text).x_end
          (scroll_offset (calculate_scaled_dims text).x_start
            (calculate_scaled_dims text).x_end
            (scroll_frames (calculate_scaled_dims text).scaled_width - 1))
        = (128, true)) := by
  rw [dims_scaled_width]
  constructor
  · intro h
    obtain ⟨h1, h2⟩ := dims_static text h
    exact ⟨h1, h2⟩
  · intro h
    have hn : ¬ scaled_text_width text ≤ DISPLAY_WIDTH := by omega
    obtain ⟨h1, h2⟩ := dims_scroll text hn
    have hsw : 128 < scaled_text_width text := h
    refine ⟨h1, h2, ?_, ?_⟩
    · intro n hlt
      rw [h1, h2]
      exact scroll_offset_closed _ hsw n hlt
    · rw [h1, h2]
      exact scroll_step_wraps _ hsw

/-- C9 counterexample: for the nine-character text ABCDEFGHI the scaled
width is 192 > 128, so the text scrolls with x_end = -192; over a complete
scroll cycle (the offset is back at 128 at frame 107) the offset never takes
the value -192: it reaches -190 at frame 106 and the next decrement jumps to
-193 ≤ -192, triggering the wrap.  The offset therefore does not wrap
"exactly when it reaches -text_width": that value is skipped. -/
theorem display_scroll_counterexample :
    (calculate_scaled_dims "ABCDEFGHI").scaled_width = 192 ∧
    (calculate_scaled_dims "ABCDEFGHI").x_start = 128 ∧
    (calculate_scaled_dims "ABCDEFGHI").x_end = -192 ∧
    ((List.range 108).all
      (fun n => scroll_offset 128 (-192) n != -192)) = true ∧
    scroll_offset 128 (-192) 106 = -190 ∧
    scroll_step 128 (-192) (scroll_offset 128 (-192) 106) = (128, true) ∧
    scroll_offset 128 (-192) 107 = 128 := by decide

/-- C9 witness: the amended theorem applied to the scrolling text ABCDEFGHI,
with the frame-offset formula instantiated at frame 5. -/
theorem display_static_centered_scroll_wrap_witness :
    DISPLAY_WIDTH < (calculate_scaled_dims "ABCDEFGHI").scaled_width ∧
    (calculate_scaled_dims "ABCDEFGHI").x_start = 128 ∧
    (calculate_scaled_dims "ABCDEFGHI").x_end
        = -((calculate_scaled_dims "ABCDEFGHI").scaled_width : Int) ∧
    scroll_offset (calculate_scaled_dims "ABCDEFGHI").x_start
        (calculate_scaled_dims "ABCDEFGHI").x_end 5
      = 128 - 3 * ((5 : Nat) : Int) ∧
    scroll_step (calculate_scaled_dims "ABCDEFGHI").x_start
        (calculate_scaled_dims "ABCDEFGHI").x_end
        (scroll_offset (calculate_scaled_dims "ABCDEFGHI").x_start
          (calculate_scaled_dims "ABCDEFGHI").x_end
          (scroll_frames (calculate_scaled_dims "ABCDEFGHI").scaled_width - 1))
      = (128, true) := by
  have h := (display_static_centered_scroll_wrap "ABCDEFGHI").2 (by decide)
  exact ⟨by decide, h.1, h.2.1, h.2.2.1 5 (by decide), h.2.2.2⟩

/-- Primitive actions of the core-1 renderer relevant to the lock
discipline: acquiring and releasing self._core1_lock, reading the shared
{text, poweredOn} pair, switching the panel on, and the drawing and flush
calls of _render_scaled_framebuf. -/
inductive Core1Action where
  | acquire_lock
  | release_lock
  | read_shared
  | poweron
  | fill_rect
  | blit
  | display_show
deriving DecidableEq, BEq

/-- Action sequence of DisplayManager._render_scaled_framebuf
(src/display_manager.py lines 266-274): fill_rect and blit run outside any
critical section, then the lock is acquired and display.show() — the
blocking hardware flush — is executed inside the with-block before the lock
is released. -/
def render_scaled_framebuf_actions : List Core1Action :=
  [Core1Action.fill_rect, Core1Action.blit, Core1Action.acquire_lock,
   Core1Action.display_show, Core1Action.release_lock]

/-- Action sequence of one scrolling frame iteration of
DisplayManager._core1_scroll_thread (src/display_manager.py lines 203-257):
the shared text/power pair is read once inside the with-lock block
(lines 205-207), the lock is released at the end of that block, the panel is
powered on (line 217), and the frame is drawn and flushed by
_render_scaled_framebuf (line 250). -/
def core1_frame_actions : List Core1Action :=
  [Core1Action.acquire_lock, Core1Action.read_shared,
   Core1Action.release_lock, Core1Action.poweron]
    ++ render_scaled_framebuf_actions

/-- Effect of an action on the number of times self._core1_lock is held. -/
def lock_delta : Core1Action → Int
  | Core1Action.acquire_lock => 1
  | Core1Action.release_lock => -1
  | _ => 0

/-- Whether some occurrence of the target action executes while the lock is
held (lock depth positive just before the action), scanning the action list
with the given initial depth. -/
def occurs_locked (target : Core1Action) : List Core1Action → Int → Bool
  | [], _ => false
  | a :: rest, d =>
    (decide (a = target) && decide (0 < d))
      || occurs_locked target rest (d + lock_delta a)

/-- Net lock depth after running a whole action list from depth 0. -/
def lock_depth_end (acts : List Core1Action) : Int :=
  acts.foldl (fun d a => d + lock_delta a) 0

/-- C6 counterexample: in the renderer's frame path the blocking hardware
flush display.show() executes while self._core1_lock is held — the lock is
re-acquired inside _render_scaled_framebuf around the flush
(src/display_manager.py lines 273-274), refuting the claim that the lock is
never held during display.show(). -/
theorem show_flush_under_lock_counterexample :
    occurs_locked Core1Action.display_show core1_frame_actions 0 = true := by
  decide

/-- C6 amended: per scrolling frame iteration the renderer reads the shared
{text, poweredOn} pair exactly once, under the lock, and releases the lock
before the drawing work (fill_rect and blit run at lock depth 0); the lock
use is balanced over the iteration; but the hardware flush display.show()
itself runs while the lock is held, because _render_scaled_framebuf
re-acquires the lock around it. -/
theorem core1_lock_discipline :
    core1_frame_actions.count Core1Action.read_shared = 1 ∧
    occurs_locked Core1Action.read_shared core1_frame_actions 0 = true ∧
    occurs_locked Core1Action.fill_rect core1_frame_actions 0 = false ∧
    occurs_locked Core1Action.blit core1_frame_actions 0 = false ∧
    occurs_locked Core1Action.display_show core1_frame_actions 0 = true ∧
    lock_depth_end core1_frame_actions = 0 := by decide
